import Mathlib

/-
Verification of the cryostat_monitor instrument-control core.

Shallow embedding of src/devices/devices.py and src/devices/utils.py:
machine floats are modelled as rationals (ℚ), numpy rolling windows as
lists, instrument channels as explicit state records, and Python
exceptions as Except / explicit error flags.  All definitions are direct
translations of the Python source; theorems settle the specification
claims about the two closed-loop controllers, the message protocol and
discovery.
-/

namespace CryostatMonitor

/-! ## Heater-range state machine (TemperatureController inner enums) -/

/-- Heater ranges, `TemperatureController.HeaterRangeValues` (OFF=0, LOW=1, MEDIUM=2, HIGH=3). -/
inductive HeaterRangeValues
  | OFF
  | LOW
  | MEDIUM
  | HIGH
deriving DecidableEq, Repr

/-- Integer value of a heater range (the enum value in the source). -/
def HeaterRangeValues.value : HeaterRangeValues → Nat
  | .OFF => 0
  | .LOW => 1
  | .MEDIUM => 2
  | .HIGH => 3

/-- Python `HeaterRangeValues(n)`: `some` on 0..3, `none` models the `ValueError`. -/
def HeaterRangeValues.ofValue : Nat → Option HeaterRangeValues
  | 0 => some .OFF
  | 1 => some .LOW
  | 2 => some .MEDIUM
  | 3 => some .HIGH
  | _ => none

/-- Per-range manual-output ceiling, `TemperatureController.HeaterMaxPercent`. -/
def HeaterMaxPercent : HeaterRangeValues → ℚ
  | .OFF => 100
  | .LOW => 80
  | .MEDIUM => 80
  | .HIGH => 50

/-- `TemperatureController.STARTING_HEATER_MIN_PERCENT`. -/
def STARTING_HEATER_MIN_PERCENT : ℚ := 10

/-- State of one heater channel of the Lakeshore 335: active range and manual output. -/
structure HeaterState where
  range : HeaterRangeValues
  output : ℚ
deriving DecidableEq, Repr

/-- A manual-output write sent to the instrument, tagged with the range active
at the moment of the write. -/
structure OutputWrite where
  value : ℚ
  activeRange : HeaterRangeValues
deriving DecidableEq, Repr

/-- Perform a manual-output write on a heater channel: returns the updated
channel state and the write event (tagged with the range active at write time). -/
def writeOutput (s : HeaterState) (v : ℚ) : HeaterState × OutputWrite :=
  ({ s with output := v }, { value := v, activeRange := s.range })

/-! ## numpy helpers -/

/-- Model of `np.mean` on a 1-D array (sum divided by length; only used on
nonempty windows in the loops). -/
def npMean (l : List ℚ) : ℚ := l.sum / l.length

/-- Model of `np.diff`: consecutive differences. -/
def npDiff (data : List ℚ) : List ℚ :=
  List.zipWith (fun a b => b - a) data data.tail

/-- Rolling-window push used by both loops: append while below capacity,
else `np.roll(a, -1)[:max_size]` with the last slot overwritten, i.e. drop
the oldest and append the new sample. -/
def windowPush (maxSize : Nat) (w : List ℚ) (x : ℚ) : List ℚ :=
  if w.length < maxSize then w ++ [x] else w.tail ++ [x]

/-! ## Pressure-stabilization step
(`ColdHeadHeaterOnPressureStabilization.attempt_stabilization_by_pressure`) -/

/-- Manual-output value that one steady-state stabilization tick writes to the
cold-head channel, as a function of the pressure window, the target pressure
and the current cold-head manual output (translated line by line from
`attempt_stabilization_by_pressure`; both branches subtract the step). -/
def attemptStabilizationByPressure (pressureData : List ℚ)
    (targetPressure coldHeadManualOutput : ℚ) : ℚ :=
  let manualOutputStep : ℚ := 5
  let meanPressure := npMean pressureData
  if meanPressure < targetPressure then
    max (coldHeadManualOutput - manualOutputStep) 0
  else
    min (coldHeadManualOutput - manualOutputStep) 80

/-! ## Warm-up controller (`TemperatureController.check_warmup_heater_status`) -/

/-- The quantity `mean_temp_diff_per_minute` of `check_warmup_heater_status`:
mean of `-np.diff(temperature_data)` divided by `warmup_interval / 60`.
`none` models the NaN produced by `np.mean` of an empty diff array (window of
fewer than two samples); all NaN comparisons below are then false. -/
def meanTempDiffPerMinute (interval : ℚ) (data : List ℚ) : Option ℚ :=
  let diffs := (npDiff data).map (fun d => -d)
  if diffs.length = 0 then none
  else some ((diffs.sum / diffs.length) / (interval / 60))

/-- Comparison `x < c` under NaN semantics: false when the value is NaN (`none`). -/
def optLt (x : Option ℚ) (c : ℚ) : Bool :=
  match x with
  | none => false
  | some v => decide (v < c)

/-- Comparison `x > c` under NaN semantics: false when the value is NaN (`none`). -/
def optGt (x : Option ℚ) (c : ℚ) : Bool :=
  match x with
  | none => false
  | some v => decide (c < v)

/-- Result of one `check_warmup_heater_status` call: the manual-output writes it
performed (in order, each tagged with the range active at write time), the
heater state after those writes, and whether an exception escaped the call
(after any writes already performed). -/
structure TickResult where
  writes : List OutputWrite
  state : HeaterState
  raised : Bool
deriving DecidableEq, Repr

/-- One warm-up decision tick, `TemperatureController.check_warmup_heater_status`,
in a closed-loop model where `get_sample_space_heater_range` and
`get_sample_space_manual_output` return the values last written (the state `s`).
The ordering of range writes relative to manual-output writes follows the
source exactly; `HeaterRangeValues.ofValue … = none` models the `ValueError`
raised by `HeaterRangeValues(heater_range.value + 1)` past HIGH. -/
def checkWarmupHeaterStatus (target interval : ℚ) (data : List ℚ)
    (s : HeaterState) : TickResult :=
  let rate := meanTempDiffPerMinute interval data
  let heaterRange := s.range
  let heaterManualOutput := s.output
  let lastTemp := data.getLastD 0
  if lastTemp > target - 2 then
    if optGt rate (1/2) || decide (lastTemp > target + 2) then
      let p := writeOutput s (max (heaterManualOutput - 10) 0)
      if heaterRange = .HIGH then { writes := [p.2], state := p.1, raised := false }
      else { writes := [p.2], state := { p.1 with range := .HIGH }, raised := false }
    else if optLt rate (-(1/2)) then
      let p := writeOutput s (min (heaterManualOutput + 2) 50)
      if heaterRange = .HIGH then { writes := [p.2], state := p.1, raised := false }
      else { writes := [p.2], state := { p.1 with range := .HIGH }, raised := false }
    else { writes := [], state := s, raised := false }
  else if optLt rate 1 then
    if heaterRange = .OFF then
      let p := writeOutput s STARTING_HEATER_MIN_PERCENT
      { writes := [p.2], state := { p.1 with range := .LOW }, raised := false }
    else
      let maxHeaterValue := HeaterMaxPercent heaterRange
      if heaterManualOutput < maxHeaterValue then
        let p := writeOutput s (min (heaterManualOutput + 5) maxHeaterValue)
        { writes := [p.2], state := p.1, raised := false }
      else
        let p := writeOutput s STARTING_HEATER_MIN_PERCENT
        match HeaterRangeValues.ofValue (heaterRange.value + 1) with
        | some higher => { writes := [p.2], state := { p.1 with range := higher }, raised := false }
        | none => { writes := [p.2], state := p.1, raised := true }
  else if optGt rate 3 then
    if heaterRange = .OFF then { writes := [], state := s, raised := false }
    else if heaterManualOutput > STARTING_HEATER_MIN_PERCENT then
      let p := writeOutput s (max (heaterManualOutput - 5) STARTING_HEATER_MIN_PERCENT)
      { writes := [p.2], state := p.1, raised := false }
    else
      match HeaterRangeValues.ofValue (heaterRange.value - 1) with
      | some lower =>
          let s1 : HeaterState := { s with range := lower }
          let p := writeOutput s1 (HeaterMaxPercent lower)
          { writes := [p.2], state := p.1, raised := false }
      | none => { writes := [], state := s, raised := true }
  else { writes := [], state := s, raised := false }

/-- One iteration of the `warmup_loop` body: read the sample-space temperature
(`none` models a raised read error), push it into the capacity-5 rolling window,
then run `check_warmup_heater_status`, whose own read/compute phase may fail
(`stateReadsOk = false`); in the source every read and every computation of the
tick precedes its first write, and the surrounding try/except swallows the
error, so a failed tick performs no write.  Returns the new window, the new
heater state and the manual-output writes performed. -/
def warmupLoopIter (target interval : ℚ) (window : List ℚ) (s : HeaterState)
    (tempRead : Option ℚ) (stateReadsOk : Bool) :
    List ℚ × HeaterState × List OutputWrite :=
  match tempRead with
  | none => (window, s, [])
  | some newData =>
      let window1 := windowPush 5 window newData
      if stateReadsOk then
        let r := checkWarmupHeaterStatus target interval window1 s
        (window1, r.state, r.writes)
      else (window1, s, [])

/-- Successive heater states produced by running the warm-up loop over a list
of successful temperature readings (the loop seeds the window with one initial
reading before its first tick). -/
def runWarmupReads (target interval : ℚ) :
    List ℚ → HeaterState → List ℚ → List HeaterState
  | _, _, [] => []
  | window, s, r :: rs =>
      let step := warmupLoopIter target interval window s (some r) true
      step.2.1 :: runWarmupReads target interval step.1 step.2.1 rs

/-! ## Combined controller system (sample-space and cold-head channels) -/

/-- The two heater channels of the temperature controller touched by the two
background controllers. -/
structure SystemState where
  sample : HeaterState
  coldHead : HeaterState
deriving DecidableEq, Repr

/-- One controller tick, in the sense of the invariant claims: a
`check_warmup_heater_status` call on the sample-space channel (with its
temperature window), a steady-state `attempt_stabilization_by_pressure` call on
the cold-head channel (with its pressure window and target), or the
stabilization loop's startup/shutdown write groups (`range := off`, manual
output := the averaged heater percentage, `range :=` the saved range). -/
inductive ControllerTick
  | warmup (window : List ℚ) (target : ℚ)
  | stabilize (pressureWindow : List ℚ) (targetPressure : ℚ)
  | stabStartup (meanHeaterPercentage : ℚ)
  | stabShutdown (meanHeaterPercentage : ℚ) (savedRange : HeaterRangeValues)
deriving DecidableEq, Repr

/-- Effect of one controller tick on the two channels, together with the
manual-output writes it sends to the instrument (each tagged with the range
active at the moment of the write, following the source's write order: the
stabilization startup/shutdown set the range to OFF before writing the averaged
output, while the steady-state step writes with the current range active). -/
def systemStep (s : SystemState) : ControllerTick → SystemState × List OutputWrite
  | .warmup window target =>
      let r := checkWarmupHeaterStatus target 20 window s.sample
      ({ s with sample := r.state }, r.writes)
  | .stabilize pressureWindow targetPressure =>
      let v := attemptStabilizationByPressure pressureWindow targetPressure s.coldHead.output
      ({ s with coldHead := { s.coldHead with output := v } },
       [{ value := v, activeRange := s.coldHead.range }])
  | .stabStartup meanHeaterPercentage =>
      ({ s with coldHead := { range := s.coldHead.range, output := meanHeaterPercentage } },
       [{ value := meanHeaterPercentage, activeRange := .OFF }])
  | .stabShutdown meanHeaterPercentage savedRange =>
      ({ s with coldHead := { range := savedRange, output := meanHeaterPercentage } },
       [{ value := meanHeaterPercentage, activeRange := .OFF }])

/-- Run a sequence of controller ticks, accumulating all manual-output writes. -/
def runSystem (s : SystemState) : List ControllerTick → SystemState × List OutputWrite
  | [] => (s, [])
  | t :: ts =>
      let p := systemStep s t
      let q := runSystem p.1 ts
      (q.1, p.2 ++ q.2)

/-- External inputs of a tick that come from instrument readings (the averaged
heater percentage sampled at stabilization startup) are heater percentages,
hence at most 100. -/
def tickInputBounded : ControllerTick → Bool
  | .stabStartup m => decide (m ≤ 100)
  | .stabShutdown m _ => decide (m ≤ 100)
  | _ => true

/-! ## Theorems: stabilization step (claims C2, C10) -/

/-- C2: the steady-state stabilization tick does not behave as specified: with
the rolling mean at or above the target (window mean 5, target 4) and current
output 40 it writes 35 = min(40 - 5, 80), a step away from the ceiling (the
claim requires 45); and with the mean below the target (mean 3, target 4) and
current output 90 it writes 85, above the claimed clamp interval [0, 80]. -/
theorem attempt_stabilization_decreases_in_both_branches :
    attemptStabilizationByPressure [5] 4 40 = 35
      ∧ attemptStabilizationByPressure [5] 4 40 ≠ 45
      ∧ attemptStabilizationByPressure [3] 4 90 = 85
      ∧ ¬ (85 : ℚ) ≤ 80 := by
  refine ⟨?_, ?_, ?_, by norm_num⟩ <;>
    norm_num [attemptStabilizationByPressure, npMean]

/-- C10: for every pressure window, target, and non-negative current cold-head
manual output x, the steady-state stabilization tick writes a value that never
exceeds x — both branches are non-increasing in the previous output. -/
theorem attempt_stabilization_nonincreasing (pressureData : List ℚ)
    (targetPressure x : ℚ) (hx : 0 ≤ x) :
    attemptStabilizationByPressure pressureData targetPressure x ≤ x := by
  unfold attemptStabilizationByPressure
  dsimp only
  split
  · exact max_le (by linarith) hx
  · calc min (x - 5) 80 ≤ x - 5 := min_le_left _ _
      _ ≤ x := by linarith

/-- Witness for C10 at a concrete input: window [3], target 4, output 12. -/
theorem attempt_stabilization_nonincreasing_witness :
    (0 : ℚ) ≤ 12 ∧ attemptStabilizationByPressure [3] 4 12 ≤ 12 :=
  ⟨by norm_num, attempt_stabilization_nonincreasing [3] 4 12 (by norm_num)⟩

/-! ## Theorems: heater ceiling invariant (claim C1) -/

/-- Every per-range ceiling is at most the OFF ceiling 100. -/
theorem heaterMaxPercent_le_100 (r : HeaterRangeValues) : HeaterMaxPercent r ≤ 100 := by
  cases r <;> norm_num [HeaterMaxPercent]

/-- C1 counterexample: starting from OFF/0 on both channels, the warm-up
controller tick sequence with temperature windows [240,240], [240,238],
[250,258], [258,258] and target 255 drives the sample-space channel
OFF/0 → LOW/10 → OFF/100 → HIGH/90 and then writes manual output 80 while the
active range is HIGH, whose ceiling is 50 — so some written value exceeds the
ceiling of the range active at the moment of the write, refuting the claimed
invariant. -/
theorem heater_ceiling_invariant_counterexample :
    ((runSystem ⟨⟨.OFF, 0⟩, ⟨.OFF, 0⟩⟩
        [ .warmup [240, 240] 255, .warmup [240, 238] 255,
          .warmup [250, 258] 255, .warmup [258, 258] 255 ]).2.any
      (fun w => decide (HeaterMaxPercent w.activeRange < w.value))) = true := by
  have h1 : systemStep ⟨⟨.OFF, 0⟩, ⟨.OFF, 0⟩⟩ (.warmup [240, 240] 255)
      = (⟨⟨.LOW, 10⟩, ⟨.OFF, 0⟩⟩, [⟨10, .OFF⟩]) := by
    norm_num [systemStep, checkWarmupHeaterStatus, meanTempDiffPerMinute, optLt, optGt,
      npDiff, writeOutput, STARTING_HEATER_MIN_PERCENT, HeaterMaxPercent] <;> simp
  have h2 : systemStep ⟨⟨.LOW, 10⟩, ⟨.OFF, 0⟩⟩ (.warmup [240, 238] 255)
      = (⟨⟨.OFF, 100⟩, ⟨.OFF, 0⟩⟩, [⟨100, .OFF⟩]) := by
    norm_num [systemStep, checkWarmupHeaterStatus, meanTempDiffPerMinute, optLt, optGt,
      npDiff, writeOutput, STARTING_HEATER_MIN_PERCENT, HeaterMaxPercent,
      HeaterRangeValues.ofValue, HeaterRangeValues.value] <;> simp
  have h3 : systemStep ⟨⟨.OFF, 100⟩, ⟨.OFF, 0⟩⟩ (.warmup [250, 258] 255)
      = (⟨⟨.HIGH, 90⟩, ⟨.OFF, 0⟩⟩, [⟨90, .OFF⟩]) := by
    norm_num [systemStep, checkWarmupHeaterStatus, meanTempDiffPerMinute, optLt, optGt,
      npDiff, writeOutput, STARTING_HEATER_MIN_PERCENT, HeaterMaxPercent] <;> simp
  have h4 : systemStep ⟨⟨.HIGH, 90⟩, ⟨.OFF, 0⟩⟩ (.warmup [258, 258] 255)
      = (⟨⟨.HIGH, 80⟩, ⟨.OFF, 0⟩⟩, [⟨80, .HIGH⟩]) := by
    norm_num [systemStep, checkWarmupHeaterStatus, meanTempDiffPerMinute, optLt, optGt,
      npDiff, writeOutput, STARTING_HEATER_MIN_PERCENT, HeaterMaxPercent] <;> simp
  simp only [runSystem, h1, h2, h3, h4]
  simp only [List.any, List.append_nil, List.nil_append, List.cons_append,
    Bool.or_eq_true, decide_eq_true_eq]
  norm_num [HeaterMaxPercent]

set_option maxHeartbeats 1600000 in
/-- Bounds for one warm-up tick: if the sample-space output is at most 100,
every manual-output value the tick writes is at most 100, and the resulting
output is again at most 100. -/
theorem checkWarmup_writes_le_100 (target interval : ℚ) (data : List ℚ)
    (s : HeaterState) (h : s.output ≤ 100) :
    (∀ w ∈ (checkWarmupHeaterStatus target interval data s).writes, w.value ≤ 100)
      ∧ (checkWarmupHeaterStatus target interval data s).state.output ≤ 100 := by
  have hmax : ∀ r, HeaterMaxPercent r ≤ 100 := heaterMaxPercent_le_100
  have h10 : STARTING_HEATER_MIN_PERCENT ≤ 100 := by norm_num [STARTING_HEATER_MIN_PERCENT]
  simp only [checkWarmupHeaterStatus, writeOutput]
  split_ifs
  all_goals try split
  all_goals
    refine ⟨fun w hw => ?_, ?_⟩
  all_goals
    simp only [List.mem_singleton, List.not_mem_nil] at *
  all_goals try subst hw
  all_goals
    first
      | exact h
      | exact h10
      | exact hmax _
      | exact max_le (by linarith) (by linarith)
      | exact le_trans (min_le_right _ _) (by linarith)
      | exact le_trans (min_le_right _ _) (hmax _)
      | linarith

/-- A stabilization write never exceeds 100 when the previous output is at most 100. -/
theorem attemptStabilization_le_100 (pressureData : List ℚ) (targetPressure x : ℚ)
    (hx : x ≤ 100) :
    attemptStabilizationByPressure pressureData targetPressure x ≤ 100 := by
  unfold attemptStabilizationByPressure
  dsimp only
  split
  · exact max_le (by linarith) (by norm_num)
  · exact le_trans (min_le_right _ _) (by norm_num)

/-- Per-tick preservation: a tick with bounded instrument-reading inputs writes
only values at most 100 and keeps both channel outputs at most 100. -/
theorem systemStep_writes_le_100 (s : SystemState) (t : ControllerTick)
    (hs : s.sample.output ≤ 100) (hc : s.coldHead.output ≤ 100)
    (ht : tickInputBounded t = true) :
    (∀ w ∈ (systemStep s t).2, w.value ≤ 100)
      ∧ (systemStep s t).1.sample.output ≤ 100
      ∧ (systemStep s t).1.coldHead.output ≤ 100 := by
  cases t with
  | warmup window target =>
      have hcw := checkWarmup_writes_le_100 target 20 window s.sample hs
      exact ⟨hcw.1, hcw.2, hc⟩
  | stabilize pressureWindow targetPressure =>
      have hv := attemptStabilization_le_100 pressureWindow targetPressure
        s.coldHead.output hc
      refine ⟨fun w hw => ?_, hs, hv⟩
      simp only [systemStep, List.mem_singleton] at hw
      subst hw
      exact hv
  | stabStartup m =>
      simp only [tickInputBounded, decide_eq_true_eq] at ht
      refine ⟨fun w hw => ?_, hs, ht⟩
      simp only [systemStep, List.mem_singleton] at hw
      subst hw
      exact ht
  | stabShutdown m savedRange =>
      simp only [tickInputBounded, decide_eq_true_eq] at ht
      refine ⟨fun w hw => ?_, hs, ht⟩
      simp only [systemStep, List.mem_singleton] at hw
      subst hw
      exact ht

/-- C1 amended: for every sequence of controller ticks of the warm-up and
pressure-stabilization controllers, starting from channel outputs at most 100
and with the averaged heater-percentage inputs bounded by 100, every
manual-output value written to the instrument is at most 100, the OFF
(maximum) ceiling — the stronger per-active-range ceiling bound of the original
claim fails (see the counterexample: a reachable warm-up sequence writes 80
while the active range is HIGH, whose ceiling is 50). -/
theorem heater_ceiling_invariant_amended (ticks : List ControllerTick)
    (s : SystemState) (hs : s.sample.output ≤ 100) (hc : s.coldHead.output ≤ 100)
    (hb : ticks.all tickInputBounded = true) :
    ((runSystem s ticks).2.all
      (fun w => decide (w.value ≤ HeaterMaxPercent .OFF))) = true := by
  induction ticks generalizing s with
  | nil => simp [runSystem]
  | cons t ts ih =>
      simp only [List.all_cons, Bool.and_eq_true] at hb
      have hstep := systemStep_writes_le_100 s t hs hc hb.1
      simp only [runSystem, List.all_append, Bool.and_eq_true]
      refine ⟨?_, ih (systemStep s t).1 hstep.2.1 hstep.2.2 hb.2⟩
      simp only [List.all_eq_true, decide_eq_true_eq]
      intro w hw
      simpa [HeaterMaxPercent] using hstep.1 w hw

/-- Witness for the amended C1 at a concrete input: one warm-up tick and one
stabilization startup from OFF/0 on both channels. -/
theorem heater_ceiling_invariant_amended_witness :
    ((⟨⟨.OFF, 0⟩, ⟨.OFF, 0⟩⟩ : SystemState).sample.output ≤ 100
        ∧ (⟨⟨.OFF, 0⟩, ⟨.OFF, 0⟩⟩ : SystemState).coldHead.output ≤ 100
        ∧ ([ ControllerTick.warmup [240, 240] 255,
             ControllerTick.stabStartup 36 ].all tickInputBounded = true))
      ∧ ((runSystem ⟨⟨.OFF, 0⟩, ⟨.OFF, 0⟩⟩
            [ ControllerTick.warmup [240, 240] 255,
              ControllerTick.stabStartup 36 ]).2.all
          (fun w => decide (w.value ≤ HeaterMaxPercent .OFF))) = true :=
  ⟨⟨by norm_num, by norm_num, by norm_num [tickInputBounded]⟩,
    heater_ceiling_invariant_amended _ _ (by norm_num) (by norm_num)
      (by norm_num [tickInputBounded])⟩

/-! ## Theorems: warm-up loop error handling (claim C3) -/

/-- C3 counterexample: a warm-up loop tick whose compute step raises yet
performs a partial write.  With the heater at HIGH and the output at the
ceiling 50, target 255 and a slow rate, `check_warmup_heater_status` writes
the starting output 10 (line order of the source: the output write precedes
the range-step computation) and then the compute step
`HeaterRangeValues(heater_range.value + 1)` raises; the loop swallows the
error and continues, but the tick has written manual output 10 and the heater
state is HIGH/10, not the HIGH/50 it was before the tick — refuting
"the failing tick performs no partial write, state exactly as before". -/
theorem warmup_tick_partial_write_counterexample :
    (checkWarmupHeaterStatus 255 20 [240, 240] ⟨.HIGH, 50⟩).raised = true
      ∧ warmupLoopIter 255 20 [240] ⟨.HIGH, 50⟩ (some 240) true
          = ([240, 240], ⟨.HIGH, 10⟩, [⟨10, .HIGH⟩])
      ∧ (warmupLoopIter 255 20 [240] ⟨.HIGH, 50⟩ (some 240) true).2.2 ≠ []
      ∧ (warmupLoopIter 255 20 [240] ⟨.HIGH, 50⟩ (some 240) true).2.1 ≠ ⟨.HIGH, 50⟩ := by
  have h : checkWarmupHeaterStatus 255 20 [240, 240] ⟨.HIGH, 50⟩
      = ⟨[⟨10, .HIGH⟩], ⟨.HIGH, 10⟩, true⟩ := by
    norm_num [checkWarmupHeaterStatus, meanTempDiffPerMinute, optLt, optGt, npDiff,
      writeOutput, STARTING_HEATER_MIN_PERCENT, HeaterMaxPercent,
      HeaterRangeValues.ofValue, HeaterRangeValues.value] <;> simp
  have hw : windowPush 5 [240] 240 = [240, 240] := by norm_num [windowPush]
  have hiter : warmupLoopIter 255 20 [240] ⟨.HIGH, 50⟩ (some 240) true
      = ([240, 240], ⟨.HIGH, 10⟩, [⟨10, .HIGH⟩]) := by
    simp [warmupLoopIter, hw, h]
  refine ⟨by rw [h], hiter, by rw [hiter]; simp, by rw [hiter]; simp⟩

/-- C3 amended: in every warm-up control-loop tick in which the per-tick read
or compute step raises, the error is swallowed and the loop continues.  When
the failure occurs in the read/compute phase preceding the tick's first write
(the temperature read, the heater-range/manual-output reads, the rate
computation), the heater state is exactly as before the tick began and no
write is performed.  Exactly one compute failure can follow a write: whenever
`check_warmup_heater_status` raises, the heater range was HIGH and the tick
has already written exactly one value, the starting output 10, leaving the
range unchanged (see the counterexample). -/
theorem warmup_tick_error_swallowed_amended (target interval : ℚ)
    (window : List ℚ) (s : HeaterState) (tempRead : Option ℚ) (ok : Bool) :
    ((tempRead = none ∨ ok = false) →
        (warmupLoopIter target interval window s tempRead ok).2.1 = s
          ∧ (warmupLoopIter target interval window s tempRead ok).2.2 = [])
      ∧ (∀ data : List ℚ,
          (checkWarmupHeaterStatus target interval data s).raised = true →
            s.range = .HIGH
              ∧ (checkWarmupHeaterStatus target interval data s).state
                  = ⟨.HIGH, STARTING_HEATER_MIN_PERCENT⟩
              ∧ (checkWarmupHeaterStatus target interval data s).writes
                  = [⟨STARTING_HEATER_MIN_PERCENT, .HIGH⟩]) := by
  constructor
  · intro hfail
    rcases hfail with h | h
    · subst h
      simp [warmupLoopIter]
    · subst h
      cases tempRead <;> simp [warmupLoopIter]
  · intro data hraised
    obtain ⟨rg, out⟩ := s
    cases rg <;>
      (simp only [checkWarmupHeaterStatus, writeOutput, HeaterRangeValues.value,
        HeaterRangeValues.ofValue] at hraised ⊢
       split_ifs at hraised ⊢ <;> simp_all)

/-- Witness for the amended C3 at concrete inputs: a failing temperature read
with the heater at LOW/10 leaves the state at LOW/10 with no writes, and the
raising HIGH-at-ceiling tick wrote exactly the starting output 10 with the
range left at HIGH. -/
theorem warmup_tick_error_swallowed_amended_witness :
    ((none : Option ℚ) = none ∨ true = false)
      ∧ ((warmupLoopIter 255 20 [240] ⟨.LOW, 10⟩ none true).2.1 = ⟨.LOW, 10⟩
          ∧ (warmupLoopIter 255 20 [240] ⟨.LOW, 10⟩ none true).2.2 = [])
      ∧ (checkWarmupHeaterStatus 255 20 [240, 240] ⟨.HIGH, 50⟩).raised = true
      ∧ ((⟨.HIGH, 50⟩ : HeaterState).range = .HIGH
          ∧ (checkWarmupHeaterStatus 255 20 [240, 240] ⟨.HIGH, 50⟩).state
              = ⟨.HIGH, STARTING_HEATER_MIN_PERCENT⟩
          ∧ (checkWarmupHeaterStatus 255 20 [240, 240] ⟨.HIGH, 50⟩).writes
              = [⟨STARTING_HEATER_MIN_PERCENT, .HIGH⟩]) := by
  have hraised : (checkWarmupHeaterStatus 255 20 [240, 240] ⟨.HIGH, 50⟩).raised = true := by
    have h : checkWarmupHeaterStatus 255 20 [240, 240] ⟨.HIGH, 50⟩
        = ⟨[⟨10, .HIGH⟩], ⟨.HIGH, 10⟩, true⟩ := by
      norm_num [checkWarmupHeaterStatus, meanTempDiffPerMinute, optLt, optGt, npDiff,
        writeOutput, STARTING_HEATER_MIN_PERCENT, HeaterMaxPercent,
        HeaterRangeValues.ofValue, HeaterRangeValues.value] <;> simp
    rw [h]
  exact ⟨Or.inl rfl,
    (warmup_tick_error_swallowed_amended 255 20 [240] ⟨.LOW, 10⟩ none true).1 (Or.inl rfl),
    hraised,
    (warmup_tick_error_swallowed_amended 255 20 [240, 240] ⟨.HIGH, 50⟩ (some 240) true).2
      [240, 240] hraised⟩

/-! ## Theorems: warm-up slow-ramp behavior (claim C5) -/

/-- C5 counterexample: with the heater at HIGH and the manual output at the
HIGH ceiling 50, a far-below-target tick with rate below 1 K/min does not
"step the range up exactly one step": `HeaterRangeValues(4)` raises a
ValueError after the starting output 10 has already been written, leaving the
range at HIGH. -/
theorem warmup_step_up_from_high_counterexample :
    checkWarmupHeaterStatus 255 20 [240, 240] ⟨.HIGH, 50⟩
      = ⟨[⟨10, .HIGH⟩], ⟨.HIGH, 10⟩, true⟩ := by
  norm_num [checkWarmupHeaterStatus, meanTempDiffPerMinute, optLt, optGt, npDiff,
    writeOutput, STARTING_HEATER_MIN_PERCENT, HeaterMaxPercent,
    HeaterRangeValues.ofValue, HeaterRangeValues.value] <;> simp

/-- C5 amended: for every warm-up tick with the latest temperature more than
2 K below target and computed mean rate below 1 K/min: from OFF the controller
writes the starting output 10 and sets the range to LOW; otherwise, below the
active ceiling, it increases the output by 5 capped at the ceiling; at the
ceiling it resets the output to 10 and steps the range up exactly one step
provided the active range is LOW or MEDIUM (from HIGH the attempted step-up
raises instead, see the counterexample).  Moreover the concrete scenario with
target 255 and readings [240, 241, 242, 242.2, 242.1] starting from OFF/0
reaches LOW/10 at the first loop tick (the second reading) and keeps stepping
the output upward: LOW/10, LOW/15, LOW/20, LOW/25. -/
theorem warmup_slow_far_below_behavior (target interval : ℚ) (data : List ℚ)
    (s : HeaterState) (r : ℚ)
    (hrate : meanTempDiffPerMinute interval data = some r) (hr : r < 1)
    (hfar : data.getLastD 0 < target - 2) :
    ((s.range = .OFF →
        checkWarmupHeaterStatus target interval data s
          = ⟨[⟨STARTING_HEATER_MIN_PERCENT, .OFF⟩],
             ⟨.LOW, STARTING_HEATER_MIN_PERCENT⟩, false⟩)
      ∧ (s.range ≠ .OFF → s.output < HeaterMaxPercent s.range →
          checkWarmupHeaterStatus target interval data s
            = ⟨[⟨min (s.output + 5) (HeaterMaxPercent s.range), s.range⟩],
               ⟨s.range, min (s.output + 5) (HeaterMaxPercent s.range)⟩, false⟩)
      ∧ (s.range ≠ .OFF → s.range ≠ .HIGH → s.output = HeaterMaxPercent s.range →
          HeaterRangeValues.ofValue (s.range.value + 1)
              = some (checkWarmupHeaterStatus target interval data s).state.range
            ∧ checkWarmupHeaterStatus target interval data s
                = ⟨[⟨STARTING_HEATER_MIN_PERCENT, s.range⟩],
                   ⟨(checkWarmupHeaterStatus target interval data s).state.range,
                    STARTING_HEATER_MIN_PERCENT⟩, false⟩))
      ∧ runWarmupReads 255 20 [240] ⟨.OFF, 0⟩ [241, 242, 242.2, 242.1]
          = [⟨.LOW, 10⟩, ⟨.LOW, 15⟩, ⟨.LOW, 20⟩, ⟨.LOW, 25⟩] := by
  obtain ⟨rg, out⟩ := s
  have hlt : optLt (meanTempDiffPerMinute interval data) 1 = true := by
    rw [hrate]
    simp only [optLt, decide_eq_true_eq]
    exact hr
  have hnear : ¬ (data.getLastD 0 > target - 2) := by linarith
  constructor
  · refine ⟨?_, ?_, ?_⟩
    · intro hOFF
      simp only at hOFF
      subst hOFF
      simp only [checkWarmupHeaterStatus, writeOutput]
      rw [if_neg hnear, if_pos hlt]
      simp
    · intro hrg hout
      simp only at hrg hout
      simp only [checkWarmupHeaterStatus, writeOutput]
      rw [if_neg hnear, if_pos hlt, if_neg hrg, if_pos hout]
    · intro hrg hhigh hceil
      simp only at hrg hhigh hceil
      subst hceil
      cases rg with
      | OFF => exact absurd rfl hrg
      | HIGH => exact absurd rfl hhigh
      | LOW =>
          simp only [checkWarmupHeaterStatus, writeOutput]
          rw [if_neg hnear, if_pos hlt, if_neg hrg]
          simp [HeaterRangeValues.value, HeaterRangeValues.ofValue, HeaterMaxPercent]
      | MEDIUM =>
          simp only [checkWarmupHeaterStatus, writeOutput]
          rw [if_neg hnear, if_pos hlt, if_neg hrg]
          simp [HeaterRangeValues.value, HeaterRangeValues.ofValue, HeaterMaxPercent]
  · have t1 : warmupLoopIter 255 20 [240] ⟨.OFF, 0⟩ (some 241) true
        = ([240, 241], ⟨.LOW, 10⟩, [⟨10, .OFF⟩]) := by
      norm_num [warmupLoopIter, windowPush, checkWarmupHeaterStatus,
        meanTempDiffPerMinute, optLt, optGt, npDiff, writeOutput,
        STARTING_HEATER_MIN_PERCENT, HeaterMaxPercent] <;> simp
    have t2 : warmupLoopIter 255 20 [240, 241] ⟨.LOW, 10⟩ (some 242) true
        = ([240, 241, 242], ⟨.LOW, 15⟩, [⟨15, .LOW⟩]) := by
      norm_num [warmupLoopIter, windowPush, checkWarmupHeaterStatus,
        meanTempDiffPerMinute, optLt, optGt, npDiff, writeOutput,
        STARTING_HEATER_MIN_PERCENT, HeaterMaxPercent] <;> simp
    have t3 : warmupLoopIter 255 20 [240, 241, 242] ⟨.LOW, 15⟩ (some 242.2) true
        = ([240, 241, 242, 242.2], ⟨.LOW, 20⟩, [⟨20, .LOW⟩]) := by
      norm_num [warmupLoopIter, windowPush, checkWarmupHeaterStatus,
        meanTempDiffPerMinute, optLt, optGt, npDiff, writeOutput,
        STARTING_HEATER_MIN_PERCENT, HeaterMaxPercent] <;> simp
    have t4 : warmupLoopIter 255 20 [240, 241, 242, 242.2] ⟨.LOW, 20⟩ (some 242.1) true
        = ([240, 241, 242, 242.2, 242.1], ⟨.LOW, 25⟩, [⟨25, .LOW⟩]) := by
      norm_num [warmupLoopIter, windowPush, checkWarmupHeaterStatus,
        meanTempDiffPerMinute, optLt, optGt, npDiff, writeOutput,
        STARTING_HEATER_MIN_PERCENT, HeaterMaxPercent] <;> simp
    simp only [runWarmupReads, t1, t2, t3, t4]

/-- Witness for the amended C5 at a concrete input: from OFF/0, target 255,
window [240, 240] (rate 0 < 1, last reading 240 < 253), the tick moves the
channel to LOW/10. -/
theorem warmup_slow_far_below_behavior_witness :
    (meanTempDiffPerMinute 20 [240, 240] = some 0 ∧ (0 : ℚ) < 1
        ∧ ([240, 240] : List ℚ).getLastD 0 < 255 - 2)
      ∧ checkWarmupHeaterStatus 255 20 [240, 240] ⟨.OFF, 0⟩
          = ⟨[⟨STARTING_HEATER_MIN_PERCENT, .OFF⟩],
             ⟨.LOW, STARTING_HEATER_MIN_PERCENT⟩, false⟩ := by
  have h1 : meanTempDiffPerMinute 20 [240, 240] = some 0 := by
    norm_num [meanTempDiffPerMinute, npDiff]
  have h2 : (0 : ℚ) < 1 := by norm_num
  have h3 : ([240, 240] : List ℚ).getLastD 0 < 255 - 2 := by
    norm_num [List.getLastD, List.getLast?]
  exact ⟨⟨h1, h2, h3⟩,
    (warmup_slow_far_below_behavior 255 20 [240, 240] ⟨.OFF, 0⟩ 0 h1 h2 h3).1.1 rfl⟩

/-! ## Controller start/stop operations
(`TemperatureController.start/stop_sample_space_warmup`,
`ColdHeadHeaterOnPressureStabilization.start/stop_pressure_stabilization`) -/

/-- Python exceptions surfaced by the start/stop operations
(`None.is_set()` / `None.set()` raise AttributeError). -/
inductive PyError
  | attributeError
deriving DecidableEq, Repr

/-- Warm-up API state: the `stop_warmup_event` (`none` before the first start;
`some b` is a `threading.Event` whose `is_set()` returns `b`) and the
sample-space heater channel. -/
structure WarmupAPIState where
  stopWarmupEvent : Option Bool
  heater : HeaterState
deriving DecidableEq, Repr

/-- `start_sample_space_warmup`: installs a fresh (unset) stop event and spawns
the warm-up thread; never raises. -/
def startSampleSpaceWarmup (s : WarmupAPIState) : Except PyError WarmupAPIState :=
  .ok { s with stopWarmupEvent := some false }

/-- `stop_sample_space_warmup`: sets the stop event (AttributeError when it is
still `None`), waits, then writes manual output 0 and range OFF. -/
def stopSampleSpaceWarmup (s : WarmupAPIState) : Except PyError WarmupAPIState :=
  match s.stopWarmupEvent with
  | none => .error .attributeError
  | some _ => .ok { stopWarmupEvent := some true, heater := { range := .OFF, output := 0 } }

/-- Stabilization API state: the `stop_stabilization_event` (`none` at
construction) and the `stabilization_is_on` event flag. -/
structure StabilizationAPIState where
  stopStabilizationEvent : Option Bool
  stabilizationIsOn : Bool
deriving DecidableEq, Repr

/-- `start_pressure_stabilization`: returns immediately when the stop event is
not set (a loop is still requested to run); raises AttributeError when the stop
event is still `None`; otherwise waits out the bounded retry loop, installs a
fresh stop event and spawns the stabilization thread (which sets
`stabilization_is_on`). -/
def startPressureStabilization (s : StabilizationAPIState) :
    Except PyError StabilizationAPIState :=
  match s.stopStabilizationEvent with
  | none => .error .attributeError
  | some isSet =>
      if isSet = false then .ok s
      else .ok { stopStabilizationEvent := some false, stabilizationIsOn := true }

/-- `stop_pressure_stabilization`: sets the stop event (AttributeError when it
is still `None`). -/
def stopPressureStabilization (s : StabilizationAPIState) :
    Except PyError StabilizationAPIState :=
  match s.stopStabilizationEvent with
  | none => .error .attributeError
  | some _ => .ok { s with stopStabilizationEvent := some true }

/-! ## Theorems: start/stop idempotence (claim C4) -/

/-- C4: each start/stop operation of the two controllers is idempotent under a
second consecutive call: whenever a call completes without raising, calling the
same operation again immediately also completes without raising (returning the
very same state); in particular a second consecutive `stop_sample_space_warmup`
does not raise and the state after stopping has the sample-space heater range
OFF and manual output 0. -/
theorem start_stop_idempotent_pairs :
    (∀ s t : WarmupAPIState,
        startSampleSpaceWarmup s = .ok t → startSampleSpaceWarmup t = .ok t)
      ∧ (∀ s t : WarmupAPIState,
          stopSampleSpaceWarmup s = .ok t →
            stopSampleSpaceWarmup t = .ok t
              ∧ t.heater.range = .OFF ∧ t.heater.output = 0)
      ∧ (∀ s t : StabilizationAPIState,
          startPressureStabilization s = .ok t → startPressureStabilization t = .ok t)
      ∧ (∀ s t : StabilizationAPIState,
          stopPressureStabilization s = .ok t → stopPressureStabilization t = .ok t) := by
  refine ⟨?_, ?_, ?_, ?_⟩
  · intro s t h
    simp only [startSampleSpaceWarmup, Except.ok.injEq] at h
    subst h
    rfl
  · intro s t h
    cases hev : s.stopWarmupEvent with
    | none => simp [stopSampleSpaceWarmup, hev] at h
    | some b =>
        simp only [stopSampleSpaceWarmup, hev, Except.ok.injEq] at h
        subst h
        exact ⟨rfl, rfl, rfl⟩
  · intro s t h
    cases hev : s.stopStabilizationEvent with
    | none => simp [startPressureStabilization, hev] at h
    | some isSet =>
        cases isSet with
        | false =>
            simp only [startPressureStabilization, hev, eq_self_iff_true, if_true,
              Except.ok.injEq] at h
            subst h
            simp [startPressureStabilization, hev]
        | true =>
            simp only [startPressureStabilization, hev, Bool.true_eq_false, if_false,
              Except.ok.injEq] at h
            subst h
            rfl
  · intro s t h
    cases hev : s.stopStabilizationEvent with
    | none => simp [stopPressureStabilization, hev] at h
    | some b =>
        simp only [stopPressureStabilization, hev, Except.ok.injEq] at h
        subst h
        rfl

/-- Witness for C4 at concrete inputs: a started warm-up state and a started
stabilization state, for each of the four operations. -/
theorem start_stop_idempotent_pairs_witness :
    (startSampleSpaceWarmup ⟨none, ⟨.HIGH, 30⟩⟩ = .ok ⟨some false, ⟨.HIGH, 30⟩⟩
        ∧ startSampleSpaceWarmup ⟨some false, ⟨.HIGH, 30⟩⟩
            = .ok ⟨some false, ⟨.HIGH, 30⟩⟩)
      ∧ (stopSampleSpaceWarmup ⟨some false, ⟨.HIGH, 30⟩⟩ = .ok ⟨some true, ⟨.OFF, 0⟩⟩
          ∧ stopSampleSpaceWarmup ⟨some true, ⟨.OFF, 0⟩⟩ = .ok ⟨some true, ⟨.OFF, 0⟩⟩
          ∧ (⟨some true, ⟨.OFF, 0⟩⟩ : WarmupAPIState).heater.range = .OFF
          ∧ (⟨some true, ⟨.OFF, 0⟩⟩ : WarmupAPIState).heater.output = 0)
      ∧ (startPressureStabilization ⟨some true, false⟩ = .ok ⟨some false, true⟩
          ∧ startPressureStabilization ⟨some false, true⟩ = .ok ⟨some false, true⟩)
      ∧ (stopPressureStabilization ⟨some false, true⟩ = .ok ⟨some true, true⟩
          ∧ stopPressureStabilization ⟨some true, true⟩ = .ok ⟨some true, true⟩) :=
  ⟨⟨rfl, start_stop_idempotent_pairs.1 ⟨none, ⟨.HIGH, 30⟩⟩ _ rfl⟩,
   ⟨rfl, (start_stop_idempotent_pairs.2.1 ⟨some false, ⟨.HIGH, 30⟩⟩ _ rfl).1,
         (start_stop_idempotent_pairs.2.1 ⟨some false, ⟨.HIGH, 30⟩⟩ _ rfl).2.1,
         (start_stop_idempotent_pairs.2.1 ⟨some false, ⟨.HIGH, 30⟩⟩ _ rfl).2.2⟩,
   ⟨rfl, start_stop_idempotent_pairs.2.2.1 ⟨some true, false⟩ _ rfl⟩,
   ⟨rfl, start_stop_idempotent_pairs.2.2.2 ⟨some false, true⟩ _ rfl⟩⟩

/-! ## Session and framed I/O protocol (`MessageBasedDevice.safe_query/safe_write/safe_read`) -/

/-- A channel I/O event performed on the underlying VISA mediator. -/
inductive ChannelEvent
  | writeMsg (msg : String)
  | readMsg
deriving DecidableEq, Repr

/-- Session state of a message-based device: whether `mediator._session` is
live, the pending terminated responses in the device buffer
(`bytes_in_buffer > 0` iff the list is nonempty), and the trace of channel I/O
performed so far. -/
structure Session where
  isOpen : Bool
  buffer : List String
  events : List ChannelEvent
deriving DecidableEq, Repr

/-- VISA-level errors of the mediator primitives. -/
inductive VisaError
  | visaIOError
deriving DecidableEq, Repr

/-- `mediator.write`: sends the message on the channel. -/
def mediatorWrite (s : Session) (msg : String) : Session :=
  { s with events := s.events ++ [.writeMsg msg] }

/-- `mediator.read`: consumes one terminated response from the buffer, or
raises a timeout-class `VisaIOError` when none arrives. -/
def mediatorRead (s : Session) : Except VisaError (String × Session) :=
  match s.buffer with
  | [] => .error .visaIOError
  | r :: rest => .ok (r, { s with buffer := rest, events := s.events ++ [.readMsg] })

/-- The `while bytes_in_buffer > 0: response += read()` drain loop of
`safe_query`/`safe_read`. -/
def drainLoop (events : List ChannelEvent) (acc : String) :
    List String → String × List String × List ChannelEvent
  | [] => (acc, [], events)
  | r :: rest => drainLoop (events ++ [.readMsg]) (acc ++ r) rest

/-- `MessageBasedDevice.safe_query`: under the lock, return the empty string
when the session is not open; otherwise write-then-read through the mediator
and optionally drain the remaining buffer. -/
def safeQuery (s : Session) (msg : String) (untilBufferEmpty : Bool) :
    Except VisaError (String × Session) :=
  if s.isOpen = false then .ok ("", s)
  else
    let s1 := mediatorWrite s msg
    match mediatorRead s1 with
    | .error e => .error e
    | .ok (response, s2) =>
        if untilBufferEmpty then
          let d := drainLoop s2.events response s2.buffer
          .ok (d.1, { isOpen := s2.isOpen, buffer := d.2.1, events := d.2.2 })
        else .ok (response, s2)

/-- `MessageBasedDevice.safe_write`: under the lock, return (None) when the
session is not open; otherwise write through the mediator. -/
def safeWrite (s : Session) (msg : String) : Except VisaError (Unit × Session) :=
  if s.isOpen = false then .ok ((), s)
  else .ok ((), mediatorWrite s msg)

/-- `MessageBasedDevice.safe_read`: under the lock, return the empty string
when the session is not open; optionally return the empty string when the
buffer is empty and `check_buffer_before` is set; otherwise read through the
mediator and optionally drain the remaining buffer. -/
def safeRead (s : Session) (checkBufferBefore untilBufferEmpty : Bool) :
    Except VisaError (String × Session) :=
  if s.isOpen = false then .ok ("", s)
  else if checkBufferBefore && decide (s.buffer = []) then .ok ("", s)
  else
    match mediatorRead s with
    | .error e => .error e
    | .ok (response, s2) =>
        if untilBufferEmpty then
          let d := drainLoop s2.events response s2.buffer
          .ok (d.1, { isOpen := s2.isOpen, buffer := d.2.1, events := d.2.2 })
        else .ok (response, s2)

/-! ## Theorems: not-connected sentinel behavior (claim C6) -/

/-- C6: for every message, flag combination and session state whose session is
not open, `safe_write`, `safe_read` and `safe_query` return an empty result
(the empty string for read/query) without raising and leave the session state
— in particular the channel I/O event trace — unchanged: no channel I/O is
performed. -/
theorem safe_ops_not_connected (s : Session) (msg : String)
    (checkBufferBefore untilBufferEmpty uq : Bool) (h : s.isOpen = false) :
    safeQuery s msg uq = .ok ("", s)
      ∧ safeWrite s msg = .ok ((), s)
      ∧ safeRead s checkBufferBefore untilBufferEmpty = .ok ("", s) := by
  refine ⟨?_, ?_, ?_⟩ <;> simp [safeQuery, safeWrite, safeRead, h]

/-- Witness for C6 at a concrete input: a closed session with a nonempty buffer
and an empty event trace. -/
theorem safe_ops_not_connected_witness :
    (Session.mk false ["stale"] []).isOpen = false
      ∧ (safeQuery ⟨false, ["stale"], []⟩ "KRDG? B" true = .ok ("", ⟨false, ["stale"], []⟩)
          ∧ safeWrite ⟨false, ["stale"], []⟩ "KRDG? B" = .ok ((), ⟨false, ["stale"], []⟩)
          ∧ safeRead ⟨false, ["stale"], []⟩ true false = .ok ("", ⟨false, ["stale"], []⟩)) :=
  ⟨rfl, safe_ops_not_connected ⟨false, ["stale"], []⟩ "KRDG? B" true false true rfl⟩

/-! ## Response parsing (`MessageBasedDevice.parse_response`, `utils._convert_str`) -/

/-- Python `str.isspace` membership for the characters `str.strip` removes. -/
def pyIsSpace (c : Char) : Bool :=
  c = ' ' || c = '\t' || c = '\n' || c = '\r' || c = '\x0b' || c = '\x0c'

/-- Python `str.strip()`: drop whitespace from both ends. -/
def pyStrip (l : List Char) : List Char :=
  ((l.dropWhile pyIsSpace).reverse.dropWhile pyIsSpace).reverse

/-- Python `str.split(',')`: split at every comma, keeping empty pieces. -/
def splitOnComma : List Char → List (List Char)
  | [] => [[]]
  | c :: rest =>
      if c = ',' then [] :: splitOnComma rest
      else
        match splitOnComma rest with
        | [] => [[c]]
        | t :: ts => (c :: t) :: ts

/-- `str.split` always yields at least one piece. -/
theorem splitOnComma_ne_nil (l : List Char) : splitOnComma l ≠ [] := by
  induction l with
  | nil => simp [splitOnComma]
  | cons c rest ih =>
      simp only [splitOnComma]
      split
      · simp
      · split <;> simp

/-- Numeric value of a digit string (Python `int` on an all-digit string). -/
def digitsToNat (l : List Char) : Nat :=
  l.foldl (fun acc c => acc * 10 + (c.toNat - 48)) 0

/-- Python `str.isdigit` (ASCII model): nonempty and all digits. -/
def pyIsDigitStr (l : List Char) : Bool := !l.isEmpty && l.all Char.isDigit

/-- Parser model of Python `float(...)` applied to a stripped token, restricted
to decimal literals `[+-] digits [. digits] [(e|E) [+-] digits]` (the `inf`/
`nan` spellings never appear in instrument responses).  Returns the value as a
scaled-decimal pair: `some (m, e)` represents `m * 10 ^ e`. -/
def parseFloatRepr (l : List Char) : Option (ℤ × ℤ) :=
  let sl :=
    match l with
    | '+' :: rest => ((1 : ℤ), rest)
    | '-' :: rest => ((-1 : ℤ), rest)
    | _ => ((1 : ℤ), l)
  let ip := sl.2.takeWhile Char.isDigit
  let l2 := sl.2.dropWhile Char.isDigit
  let fl :=
    match l2 with
    | '.' :: rest => (rest.takeWhile Char.isDigit, rest.dropWhile Char.isDigit)
    | _ => (([] : List Char), l2)
  let fp := fl.1
  let l3 := fl.2
  if ip.isEmpty && fp.isEmpty then none
  else
    let mantissa : ℤ :=
      sl.1 * ((digitsToNat ip : ℤ) * (10 : ℤ) ^ fp.length + (digitsToNat fp : ℤ))
    match l3 with
    | [] => some (mantissa, -(fp.length : ℤ))
    | e :: rest =>
        if e = 'e' || e = 'E' then
          let er :=
            match rest with
            | '+' :: r => ((1 : ℤ), r)
            | '-' :: r => ((-1 : ℤ), r)
            | _ => ((1 : ℤ), rest)
          let ed := er.2.takeWhile Char.isDigit
          let rest3 := er.2.dropWhile Char.isDigit
          if ed.isEmpty || !rest3.isEmpty then none
          else some (mantissa, er.1 * (digitsToNat ed : ℤ) - (fp.length : ℤ))
        else none

/-- `utils._str_is_float`: `float(...)` succeeds. -/
def strIsFloat (l : List Char) : Bool := (parseFloatRepr l).isSome

/-- The rational value of a parsed float. -/
def parseFloatQ (l : List Char) : Option ℚ :=
  (parseFloatRepr l).map (fun p => (p.1 : ℚ) * (10 : ℚ) ^ p.2)

/-- A coerced response token: int, float or left as text. -/
inductive RespValue
  | intVal (n : ℤ)
  | floatVal (q : ℚ)
  | strVal (s : List Char)
deriving DecidableEq, Repr

/-- `utils._convert_str`: all-digit string to int, else parseable float to
float, else the string itself. -/
def convertStr (l : List Char) : RespValue :=
  if pyIsDigitStr l then .intVal (digitsToNat l)
  else if strIsFloat l then .floatVal ((parseFloatQ l).getD 0)
  else .strVal l

/-- A parsed response: one unwrapped value or a list of values. -/
inductive ParsedResponse
  | single (v : RespValue)
  | listVal (vs : List RespValue)
deriving DecidableEq, Repr

/-- The coerced token list of a response: strip the response, split on commas,
strip and coerce each token. -/
def responseTokens (response : List Char) : List RespValue :=
  (splitOnComma (pyStrip response)).map (fun r => convertStr (pyStrip r))

/-- `MessageBasedDevice.parse_response`: the single coerced value when there is
exactly one token, else the list of coerced values. -/
def parseResponse (response : List Char) : ParsedResponse :=
  let responseList := responseTokens response
  if responseList.length > 1 then .listVal responseList
  else .single (responseList.headD (.strVal []))

/-! ## Theorems: response parsing (claim C7) -/

/-- C7: `parse_response` strips the response, splits it on commas, coerces each
stripped token with precedence digit string to int, then parseable decimal to
float, else the token text, and unwraps a single token: for every response the
result is the single coerced value when there is exactly one token and the
coerced list otherwise; in particular parse_response("4.5,OFF,12") is the list
[4.5, "OFF", 12] and parse_response("7") is the unwrapped int 7. -/
theorem parse_response_spec :
    parseResponse ("4.5,OFF,12".data)
        = .listVal [.floatVal (9/2), .strVal ("OFF".data), .intVal 12]
      ∧ parseResponse ("7".data) = .single (.intVal 7)
      ∧ (∀ response : List Char, (responseTokens response).length = 1 →
          parseResponse response = .single ((responseTokens response).headD (.strVal [])))
      ∧ (∀ response : List Char, (responseTokens response).length ≠ 1 →
          parseResponse response = .listVal (responseTokens response)) := by
  have hlen : ∀ response : List Char, 1 ≤ (responseTokens response).length := by
    intro response
    have h := splitOnComma_ne_nil (pyStrip response)
    have : splitOnComma (pyStrip response) ≠ [] → 0 < (splitOnComma (pyStrip response)).length :=
      List.length_pos.mpr
    simpa [responseTokens] using this h
  refine ⟨?_, ?_, ?_, ?_⟩
  · have hsplit : splitOnComma (pyStrip "4.5,OFF,12".data)
        = ["4.5".data, "OFF".data, "12".data] := by decide
    have c1 : convertStr (pyStrip "4.5".data) = .floatVal (9/2) := by
      have h1 : parseFloatRepr "4.5".data = some (45, -1) := by decide
      have h2 : pyIsDigitStr "4.5".data = false := by decide
      have h3 : pyStrip "4.5".data = "4.5".data := by decide
      rw [h3]
      simp only [convertStr, h2, strIsFloat, parseFloatQ, h1, Option.isSome_some,
        Option.map_some, Option.getD_some, if_false, if_true, Bool.false_eq_true]
      norm_num
    have c2 : convertStr (pyStrip "OFF".data) = .strVal ("OFF".data) := by decide
    have c3 : convertStr (pyStrip "12".data) = .intVal 12 := by decide
    simp [parseResponse, responseTokens, hsplit, c1, c2, c3]
  · have hsplit : splitOnComma (pyStrip "7".data) = ["7".data] := by decide
    have c1 : convertStr (pyStrip "7".data) = .intVal 7 := by decide
    simp [parseResponse, responseTokens, hsplit, c1]
  · intro response h
    simp [parseResponse, h]
  · intro response h
    have h2 : 1 < (responseTokens response).length := lt_of_le_of_ne (hlen response) (Ne.symm h)
    simp [parseResponse, h2]

/-! ## Message framing (`MessageBasedDevice.form_message`) -/

/-- `MessageBasedDevice.form_message`: append a question mark when the message
is a query, then append a space and the channel token when a channel is given
(an integer channel is rendered in decimal by the f-string). -/
def formMessage (primaryCommand : String) (isQuery : Bool)
    (channel : Option String) : String :=
  let message := primaryCommand
  let message := if isQuery then message ++ "?" else message
  match channel with
  | none => message
  | some ch => message ++ " " ++ ch

/-! ## Theorems: message framing (claim C8) -/

/-- C8: `form_message` appends a question mark exactly when the query flag is
set, and appends a space followed by the channel token, after the question mark
when present, exactly when a channel is given; in particular
form_message("SETP", True, "B") = "SETP? B" and
form_message("CLR", False, None) = "CLR". -/
theorem form_message_spec :
    formMessage "SETP" true (some "B") = "SETP? B"
      ∧ formMessage "CLR" false none = "CLR"
      ∧ (∀ (c : String) (q : Bool) (ch : String),
          formMessage c q (some ch) = formMessage c q none ++ " " ++ ch)
      ∧ (∀ c : String, formMessage c true none = c ++ "?")
      ∧ (∀ c : String, formMessage c false none = c) := by
  refine ⟨rfl, rfl, ?_, fun c => rfl, fun c => rfl⟩
  intro c q ch
  cases q <;> rfl

/-! ## Resource discovery (`utils.find_available_resources_by_idn/..._by_visa_attribute`,
`MessageBasedDevice.from_idn/from_visa_attribute`) -/

/-- Whether the first list starts with the second list. -/
def startsWithL : List Char → List Char → Bool
  | [], _ => true
  | _ :: _, [] => false
  | a :: as, b :: bs => a = b && startsWithL as bs

/-- Python `needle in haystack`: the needle occurs as a contiguous substring. -/
def containsSub (needle : List Char) : List Char → Bool
  | [] => needle.isEmpty
  | c :: rest => startsWithL needle (c :: rest) || containsSub needle rest

/-- A candidate VISA channel as seen during discovery: its resource name, the
identity it reports to `*IDN?`, the value of the requested VISA attribute,
whether opening (and clearing/attribute access/closing) it succeeds, and
whether it is a `MessageBasedResource`. -/
structure VisaResource where
  resourceName : String
  idn : String
  attrValue : String
  openable : Bool
  messageBased : Bool
deriving DecidableEq, Repr

/-- The IDN match condition of `find_available_resources_by_idn`: substring
when the match is partial, exact equality otherwise. -/
def idnMatch (desiredIdn : String) (partMatch : Bool) (idn : String) : Bool :=
  if partMatch then containsSub desiredIdn.data idn.data else idn = desiredIdn

/-- `utils.find_available_resources_by_idn`: scan all reachable channels,
skipping those that cannot be opened and those that are not message-based
(only message-based resources are queried for `*IDN?`), and collect the ones
whose identity matches. -/
def findAvailableResourcesByIdn (resources : List VisaResource)
    (desiredIdn : String) (partMatch : Bool) : List VisaResource :=
  resources.filter (fun r => r.openable && r.messageBased
    && idnMatch desiredIdn partMatch r.idn)

/-- The attribute match condition of `find_available_resources_by_visa_attribute`. -/
def attrMatch (desiredAttrValue : String) (partMatch : Bool) (v : String) : Bool :=
  if partMatch then containsSub desiredAttrValue.data v.data else v = desiredAttrValue

/-- `utils.find_available_resources_by_visa_attribute`: scan all reachable
channels, skipping those that cannot be opened, and collect the ones whose
requested VISA attribute value matches (message-based or not). -/
def findAvailableResourcesByVisaAttribute (resources : List VisaResource)
    (desiredAttrValue : String) (partMatch : Bool) : List VisaResource :=
  resources.filter (fun r => r.openable && attrMatch desiredAttrValue partMatch r.attrValue)

/-- The distinct discovery failures: `ValueError('No resource found …')`,
`ValueError('Multiple resources found …')` and
`ValueError('Resource … is not a MessageBasedResource.')`. -/
inductive DiscoveryError
  | noneFound
  | multipleFound
  | notMessageBased
deriving DecidableEq, Repr

/-- `MessageBasedDevice.from_idn`: raise the none-found error on zero matches
and the multiple-found error on two or more; otherwise build the device from
the unique matching channel. -/
def fromIdn (resources : List VisaResource) (idn : String) (partMatch : Bool) :
    Except DiscoveryError VisaResource :=
  let resourceList := findAvailableResourcesByIdn resources idn partMatch
  match resourceList with
  | [] => .error .noneFound
  | [r] => .ok r
  | _ :: _ :: _ => .error .multipleFound

/-- `MessageBasedDevice.from_visa_attribute`: raise the none-found error on
zero matches and the multiple-found error on two or more; a unique match must
additionally be a `MessageBasedResource`, otherwise a third error is raised;
otherwise build the device from it. -/
def fromVisaAttribute (resources : List VisaResource) (desiredAttrValue : String)
    (partMatch : Bool) : Except DiscoveryError VisaResource :=
  let resourceList := findAvailableResourcesByVisaAttribute resources desiredAttrValue partMatch
  match resourceList with
  | [] => .error .noneFound
  | [r] => if r.messageBased then .ok r else .error .notMessageBased
  | _ :: _ :: _ => .error .multipleFound

/-! ## Theorems: discovery error handling (claim C9) -/

/-- C9 counterexample: a channel set whose unique attribute-matching channel is
not message-based: `from_visa_attribute` does not return a device built from
the unique matching channel — it raises a third error instead. -/
theorem discovery_unique_match_counterexample :
    findAvailableResourcesByVisaAttribute
        [⟨"ASRL1::INSTR", "", "Model-X", true, false⟩] "Model-X" false
        = [⟨"ASRL1::INSTR", "", "Model-X", true, false⟩]
      ∧ fromVisaAttribute [⟨"ASRL1::INSTR", "", "Model-X", true, false⟩] "Model-X" false
          = .error .notMessageBased := by
  constructor <;> rfl

/-- C9 amended: for every set of reachable channels, `from_idn` returns a
device built from the unique matching channel when exactly one channel matches,
and `from_visa_attribute` does so when the unique matching channel is
message-based (a unique non-message-based match raises a third, again
distinguishable error); when zero channels or more than one channel match, both
raise, with distinct none-found and multiple-found reasons, never silently
resolved. -/
theorem discovery_match_errors (resources : List VisaResource)
    (desired : String) (partMatch : Bool) :
    (∀ r : VisaResource,
        findAvailableResourcesByIdn resources desired partMatch = [r] →
          fromIdn resources desired partMatch = .ok r)
      ∧ (findAvailableResourcesByIdn resources desired partMatch = [] →
          fromIdn resources desired partMatch = .error .noneFound)
      ∧ (2 ≤ (findAvailableResourcesByIdn resources desired partMatch).length →
          fromIdn resources desired partMatch = .error .multipleFound)
      ∧ (∀ r : VisaResource,
          findAvailableResourcesByVisaAttribute resources desired partMatch = [r] →
            r.messageBased = true →
              fromVisaAttribute resources desired partMatch = .ok r)
      ∧ (∀ r : VisaResource,
          findAvailableResourcesByVisaAttribute resources desired partMatch = [r] →
            r.messageBased = false →
              fromVisaAttribute resources desired partMatch = .error .notMessageBased)
      ∧ (findAvailableResourcesByVisaAttribute resources desired partMatch = [] →
          fromVisaAttribute resources desired partMatch = .error .noneFound)
      ∧ (2 ≤ (findAvailableResourcesByVisaAttribute resources desired partMatch).length →
          fromVisaAttribute resources desired partMatch = .error .multipleFound)
      ∧ (DiscoveryError.noneFound ≠ DiscoveryError.multipleFound
          ∧ DiscoveryError.noneFound ≠ DiscoveryError.notMessageBased
          ∧ DiscoveryError.multipleFound ≠ DiscoveryError.notMessageBased) := by
  refine ⟨?_, ?_, ?_, ?_, ?_, ?_, ?_, by simp, by simp, by simp⟩
  · intro r h
    simp [fromIdn, h]
  · intro h
    simp [fromIdn, h]
  · intro h
    cases hm : findAvailableResourcesByIdn resources desired partMatch with
    | nil => rw [hm] at h; simp at h
    | cons a tl =>
        cases tl with
        | nil => rw [hm] at h; simp at h
        | cons b tl2 => simp [fromIdn, hm]
  · intro r h hmb
    simp [fromVisaAttribute, h, hmb]
  · intro r h hmb
    simp [fromVisaAttribute, h, hmb]
  · intro h
    simp [fromVisaAttribute, h]
  · intro h
    cases hm : findAvailableResourcesByVisaAttribute resources desired partMatch with
    | nil => rw [hm] at h; simp at h
    | cons a tl =>
        cases tl with
        | nil => rw [hm] at h; simp at h
        | cons b tl2 => simp [fromVisaAttribute, hm]

/-- Witness for the amended C9 at a concrete channel set: three channels of
which exactly one reports identity Model-X. -/
theorem discovery_match_errors_witness :
    (findAvailableResourcesByIdn
        [⟨"ASRL1::INSTR", "Model-X", "", true, true⟩,
         ⟨"ASRL2::INSTR", "Model-Y", "", true, true⟩,
         ⟨"GPIB0::12::INSTR", "Model-Z", "", true, true⟩] "Model-X" false
        = [⟨"ASRL1::INSTR", "Model-X", "", true, true⟩])
      ∧ fromIdn
          [⟨"ASRL1::INSTR", "Model-X", "", true, true⟩,
           ⟨"ASRL2::INSTR", "Model-Y", "", true, true⟩,
           ⟨"GPIB0::12::INSTR", "Model-Z", "", true, true⟩] "Model-X" false
          = .ok ⟨"ASRL1::INSTR", "Model-X", "", true, true⟩ := by
  have h : findAvailableResourcesByIdn
      [⟨"ASRL1::INSTR", "Model-X", "", true, true⟩,
       ⟨"ASRL2::INSTR", "Model-Y", "", true, true⟩,
       ⟨"GPIB0::12::INSTR", "Model-Z", "", true, true⟩] "Model-X" false
      = [⟨"ASRL1::INSTR", "Model-X", "", true, true⟩] := by rfl
  exact ⟨h, (discovery_match_errors _ "Model-X" false).1 _ h⟩

end CryostatMonitor
